import Mathlib

/-!
# Verification of the wearipedia device layer

Shallow embedding of the wearipedia repository's device façade and whoop
vendor client:

* `src/wearipedia/devices/fitbit/fitbit_sense.py` (`Fitbit_sense`)
* `src/wearipedia/devices/whoop/whoop_user.py` (`WhoopUser`)

Calendar dates are modelled by their civil day number (days since the Unix
epoch, computed by the standard civil-from-date algorithm), so that
`datetime.strptime(x, "%Y-%m-%d")` subtraction `.days` becomes integer
subtraction of day numbers.  Timestamps with a time of day (whoop) are
modelled as integer seconds.  Definitions whose Python source is not under
`src/` (the `BaseDevice` dispatcher, `seed_everything`, `create_syn_data`)
are modelled from the specification and say so in their doc comments.
-/

set_option autoImplicit false
set_option linter.unusedVariables false

namespace Wearipedia

/-- Civil day number of a calendar date (days since 1970-01-01), the standard
days-from-civil algorithm.  This is the day-number semantics of
`datetime.strptime(x, "%Y-%m-%d")` used by `_filter_synthetic`. -/
def daysFromCivil (y m d : Int) : Int :=
  let y2 := if m ≤ 2 then y - 1 else y
  let era := (if 0 ≤ y2 then y2 else y2 - 399).fdiv 400
  let yoe := y2 - era * 400
  let doy := (153 * (m + (if 2 < m then -3 else 9)) + 2).fdiv 5 + d - 1
  let doe := yoe * 365 + yoe.fdiv 4 - yoe.fdiv 100 + doy
  era * 146097 + doe - 719468

/-- A value stored in a device's `init_params` dict: the seed is an integer,
the synthetic range boundaries are calendar dates. -/
inductive PVal where
  | int (n : Int)
  | date (d : Int)
  deriving DecidableEq, Repr

/-- A data record: a flat mapping from field name to scalar value.  The
`"dateTime"` field holds the record's civil day number. -/
abbrev DataRec := List (String × Int)

/-- Device state: the declared supported data types, the `init_params` dict
built at construction, the global RNG state captured by `seed_everything`,
the synthetic/real mode flag, and the object attributes (`self.sleep`,
`self.steps`, ... as set by `_gen_synthetic`), modelled as an association
list keyed by attribute name. -/
structure DeviceState where
  valid_data_types : List String
  init_params : List (String × PVal)
  rngState : Int
  synthetic : Bool
  attrs : List (String × List DataRec)
  deriving DecidableEq, Repr

/-- Modelled from the spec: `seed_everything` (wearipedia.utils, not under
`src/`).  Spec §4.1: synthetic generation is "seeded once at construction";
§9 notes the module-level seeded RNG.  We model the seeded global RNG state
as the seed itself, captured into the device at construction. -/
def seed_everything (seed : Int) : Int := seed

/-- One step of a linear congruential generator, the concrete deterministic
RNG standing in for the seeded global RNG. -/
def lcgStep (x : Int) : Int := (1103515245 * x + 12345) % 2147483648

/-- Deterministic synthetic scalar for a given RNG state and day. -/
def synValue (rng day : Int) : Int := lcgStep (rng + day) % 100

/-- The field that every record of a given data type is expected to carry:
`minutesAsleep` for `sleep` records, a numeric `value` for the others
(spec §8 and the assertions of `test_fitbit_sense.helper_test`). -/
def expectedField (data_type : String) : String :=
  if data_type = "sleep" then "minutesAsleep" else "value"

/-- A synthetic record for one day of one data type. -/
def mkSynRecord (data_type : String) (rng day : Int) : DataRec :=
  [("dateTime", day), (expectedField data_type, synValue rng day)]

/-- Modelled from the spec: `create_syn_data` (fitbit_sense_gen, not under
`src/`).  Spec: `generate_synthetic_data(seed, start_date, end_date) ->
{data_type: records}`, deterministic in the seed and date range (§8), with
at least one record per day of the range carrying the expected field
(§8, and the example of §8). -/
def create_syn_data (rng startDay endDay : Int) : String → List DataRec :=
  fun data_type =>
    (List.range (endDay - startDay + 1).toNat).map fun (i : Nat) =>
      mkSynRecord data_type rng (startDay + (i : Int))

/-- The declared supported data types of `Fitbit_sense` (`__init__`,
fitbit_sense.py lines 50-62). -/
def fitbit_sense_data_types : List String :=
  ["sleep", "steps", "minutesVeryActive", "minutesLightlyActive",
   "minutesFairlyActive", "distance", "minutesSedentary", "heart_rate_day",
   "hrv", "distance_day"]

/-- Modelled from the spec: `BaseDevice._initialize_device_params` (not under
`src/`).  Builds the immutable `init_params` dict (spec §3) from the
constructor's params merged over the declared defaults, exactly the two
dicts passed at fitbit_sense.py lines 44-68. -/
def initialize_device_params (params defaults : List (String × PVal)) :
    List (String × PVal) :=
  defaults.map fun kv => (kv.fst, (params.lookup kv.fst).getD kv.snd)

/-- `Fitbit_sense.__init__` (fitbit_sense.py lines 37-69): records the
supported data types and the `seed` / `synthetic_start_date` /
`synthetic_end_date` params, seeds the RNG, and starts in synthetic mode
with no data attributes set. -/
def fitbit_sense_init (seed synthetic_start synthetic_end : Int) : DeviceState :=
  { valid_data_types := fitbit_sense_data_types
    init_params := initialize_device_params
      [("seed", PVal.int seed),
       ("synthetic_start_date", PVal.date synthetic_start),
       ("synthetic_end_date", PVal.date synthetic_end)]
      [("seed", PVal.int 0),
       ("synthetic_start_date", PVal.date (daysFromCivil 2022 3 1)),
       ("synthetic_end_date", PVal.date (daysFromCivil 2022 6 17))]
    rngState := seed_everything seed
    synthetic := true
    attrs := [] }

/-- The ten attribute bindings `_gen_synthetic` stores on a generated
device (the right-hand sides of fitbit_sense.py lines 109-118). -/
def fitbit_syn_attrs (rng s e : Int) : List (String × List DataRec) :=
  [("sleep", create_syn_data rng s e "sleep"),
   ("steps", create_syn_data rng s e "steps"),
   ("minutesVeryActive", create_syn_data rng s e "minutesVeryActive"),
   ("minutesFairlyActive", create_syn_data rng s e "minutesFairlyActive"),
   ("minutesLightlyActive", create_syn_data rng s e "minutesLightlyActive"),
   ("distance", create_syn_data rng s e "distance"),
   ("minutesSedentary", create_syn_data rng s e "minutesSedentary"),
   ("heart_rate_day", create_syn_data rng s e "heart_rate_day"),
   ("hrv", create_syn_data rng s e "hrv"),
   ("distance_day", create_syn_data rng s e "distance_day")]

/-- A `get_data` date window (`params["start_date"]`, `params["end_date"]`),
as civil day numbers. -/
structure FParams where
  start_date : Int
  end_date : Int
  deriving DecidableEq, Repr

/-- `Fitbit_sense._default_params` (fitbit_sense.py lines 71-77). -/
def fitbit_default_params : FParams :=
  { start_date := daysFromCivil 2022 4 24, end_date := daysFromCivil 2022 4 28 }

/-- `Fitbit_sense._filter_synthetic` (fitbit_sense.py lines 79-90), verbatim:
it looks up `init_params["synthetic_start_date"]` (`none` models the
`KeyError`), computes `start_idx` and `end_idx` as day differences, and then
returns `data` unchanged — the computed indices are never used. -/
def filter_synthetic (st : DeviceState) (data : List DataRec)
    (data_type : String) (params : FParams) : Option (List DataRec) :=
  match st.init_params.lookup "synthetic_start_date" with
  | some (PVal.date synthetic_start) =>
    let start_idx := params.start_date - synthetic_start
    let end_idx := params.end_date - synthetic_start
    some data
  | _ => none

/-- `Fitbit_sense._gen_synthetic` (fitbit_sense.py lines 102-118): calls
`create_syn_data` on the synthetic date range from `init_params` and stores
each of the ten series into an object attribute (`self.sleep = ...`, etc.).
`none` models a `KeyError` on the `init_params` lookups. -/
def gen_synthetic (st : DeviceState) : Option DeviceState :=
  match st.init_params.lookup "synthetic_start_date",
        st.init_params.lookup "synthetic_end_date" with
  | some (PVal.date s), some (PVal.date e) =>
    let syn_data := create_syn_data st.rngState s e
    some { st with attrs :=
      [("sleep", syn_data "sleep"),
       ("steps", syn_data "steps"),
       ("minutesVeryActive", syn_data "minutesVeryActive"),
       ("minutesFairlyActive", syn_data "minutesFairlyActive"),
       ("minutesLightlyActive", syn_data "minutesLightlyActive"),
       ("distance", syn_data "distance"),
       ("minutesSedentary", syn_data "minutesSedentary"),
       ("heart_rate_day", syn_data "heart_rate_day"),
       ("hrv", syn_data "hrv"),
       ("distance_day", syn_data "distance_day")] }
  | _, _ => none

/-- `Fitbit_sense._get_real` (fitbit_sense.py lines 92-100): the window
passed to `fetch_real_data` is read from `init_params["start_date"]` and
`init_params["end_date"]`; the `params` argument is never consulted.  The
result is the fetch call actually issued (data type and window), `none`
modelling the `KeyError` when `init_params` lacks those keys. -/
def get_real_call (st : DeviceState) (data_type : String) (params : FParams) :
    Option (String × Int × Int) :=
  match st.init_params.lookup "start_date", st.init_params.lookup "end_date" with
  | some (PVal.date s), some (PVal.date e) => some (data_type, s, e)
  | _, _ => none

/-- Errors a `get_data` call can surface. -/
inductive DevError where
  | unsupportedDataType
  | keyError
  deriving DecidableEq, Repr

/-- Modelled from the spec: `BaseDevice.get_data` (not under `src/`).
Spec §4.1: `get_data(data_type, params)` validates `data_type` against the
device's declared supported set and fails with an unsupported-data-type
error otherwise; in real mode it delegates to the vendor client
(`_get_real`); in synthetic mode it triggers (or reuses) synthetic
generation (`_gen_synthetic`, storing the series as attributes), then
applies `_filter_synthetic` to the stored series.  Spec §6: a missing
`params` falls back to `_default_params`.  `fetch` is the external vendor
collaborator `fetch_real_data`. -/
def get_data (fetch : String → Int → Int → List DataRec) (st : DeviceState)
    (data_type : String) (params : Option FParams) :
    Except DevError (List DataRec) × DeviceState :=
  let p := params.getD fitbit_default_params
  if data_type ∈ st.valid_data_types then
    if st.synthetic then
      match st.attrs.lookup data_type with
      | some series =>
        match filter_synthetic st series data_type p with
        | some out => (Except.ok out, st)
        | none => (Except.error DevError.keyError, st)
      | none =>
        match gen_synthetic st with
        | some st2 =>
          match st2.attrs.lookup data_type with
          | some series =>
            match filter_synthetic st2 series data_type p with
            | some out => (Except.ok out, st2)
            | none => (Except.error DevError.keyError, st2)
          | none => (Except.error DevError.keyError, st2)
        | none => (Except.error DevError.keyError, st)
    else
      match get_real_call st data_type p with
      | some (dt, s, e) => (Except.ok (fetch dt s e), st)
      | none => (Except.error DevError.keyError, st)
  else (Except.error DevError.unsupportedDataType, st)

/-! ## WhoopUser (whoop_user.py)

Timestamps with a time of day are modelled as integer seconds; the
`strptime("%Y-%m-%dT%H:%M:%S")` / `strftime(...)` round trip on the
canonical parameter strings is the identity on that representation, and
`params["end"].split(".")[0]` (dropping fractional seconds) is absorbed by
the integer-second model. -/

/-- `math.ceil(days / 7)` on an integer day count. -/
def ceilDiv7 (d : Int) : Int := -((-d).fdiv 7)

/-- `split_into_weeklong_params` (whoop_user.py lines 374-397): clamps the
parsed end to `now` (`datetime.datetime.now()`), takes the whole-day
difference `(end - start).days` (floor division, `Int.fdiv`), and emits
`ceil(days / 7)` windows, the `i`-th running from `start + 7*i` days to
`start + 7*(i+1)` days (604800 seconds per week). -/
def split_into_weeklong_params (now : Int) (params : Int × Int) :
    List (Int × Int) :=
  let start := params.fst
  let e := if now < params.snd then now else params.snd
  let days := (e - start).fdiv 86400
  (List.range (ceilDiv7 days).toNat).map fun (i : Nat) =>
    (start + 604800 * (i : Int), start + 604800 * ((i : Int) + 1))

/-- The request loop of `get_heart_rate_df` (whoop_user.py lines 399-407):
`data = []` then `data = data + self.get_heart_rate_json(p)["values"]` for
each split window in order.  `fetch` is the per-window request returning
the `"values"` list of the response. -/
def get_heart_rate_values {α : Type} (fetch : Int × Int → List α)
    (now : Int) (params : Int × Int) : List α :=
  (split_into_weeklong_params now params).foldl (fun data p => data ++ fetch p) []

/-- An HTTP response: a status code and a parsed JSON body. -/
structure HttpResp (α : Type) where
  status_code : Nat
  json : α
  deriving DecidableEq, Repr

/-- The JSON body of a successful login response (`login_data["access_token"]`
and `login_data["user"]["id"]`, flattened). -/
structure WhoopLoginBody where
  access_token : String
  user_id : String
  deriving DecidableEq, Repr

/-- `WhoopUser.login` (whoop_user.py lines 49-75).  Returns the resulting
`(token, user_id)` (or the `AssertionError` message) together with the
number of HTTP requests issued: with an empty email the login is faked
(`token = user_id = ""`) and no request is made; otherwise one POST is
issued, `status_code != 200` raises `"Credentials rejected"`, and a 200
response's body supplies the token and user id. -/
def whoop_login (email password : String) (post_resp : HttpResp WhoopLoginBody) :
    Except String (String × String) × Nat :=
  if email.length = 0 then (Except.ok ("", ""), 0)
  else
    ((if post_resp.status_code ≠ 200 then Except.error "Credentials rejected"
      else Except.ok (post_resp.json.access_token, post_resp.json.user_id)), 1)

/-- `WhoopUser.get_cycles_json` (whoop_user.py lines 118-126): returns
`cycles_request.json()` with no status check. -/
def get_cycles_json {α : Type} (cycles_request : HttpResp α) : α :=
  cycles_request.json

/-- `WhoopUser.get_heart_rate_json` (whoop_user.py lines 338-348): returns
`hr_request.json()` with no status check. -/
def get_heart_rate_json {α : Type} (hr_request : HttpResp α) : α :=
  hr_request.json

/-- `WhoopUser.get_health_metrics_json` (whoop_user.py lines 77-88): returns
`metrics_request.json()` with no status check. -/
def get_health_metrics_json {α : Type} (metrics_request : HttpResp α) : α :=
  metrics_request.json

/-- `WhoopUser.get_sports` (whoop_user.py lines 447-451): returns
`sports_request.json()` with no status check. -/
def get_sports {α : Type} (sports_request : HttpResp α) : α :=
  sports_request.json

/-! ## `convert_whoop_str_to_datetime` (whoop_user.py lines 426-445)

The two `re.sub` passes and `datetime.datetime.fromisoformat` are embedded
over `List Char`. -/

/-- Decimal value of a digit character. -/
def digitVal (c : Char) : Nat := c.toNat - 48

/-- Matcher for one attempt of the pattern `\.([0-9]{0,3})\+` just after the
`'.'`: greedily takes the leading digits; the match succeeds when they are
at most 3 and a `'+'` follows, yielding the captured digits and the rest
after the `'+'`. -/
def scanMatch (l : List Char) : Option (List Char × List Char) :=
  match l.dropWhile Char.isDigit with
  | '+' :: r =>
    if (l.takeWhile Char.isDigit).length ≤ 3 then
      some (l.takeWhile Char.isDigit, r)
    else none
  | _ => none

theorem length_dropWhile_le_self (p : Char → Bool) (l : List Char) :
    (l.dropWhile p).length ≤ l.length := by
  induction l with
  | nil => simp
  | cons c rest ih =>
    by_cases h : p c
    · simp only [List.dropWhile_cons, h, if_true]
      exact Nat.le_succ_of_le ih
    · simp [List.dropWhile_cons, h]

theorem scanMatch_length {l ds r : List Char} (h : scanMatch l = some (ds, r)) :
    r.length < l.length := by
  have hsub : (l.dropWhile Char.isDigit).length ≤ l.length :=
    length_dropWhile_le_self _ l
  unfold scanMatch at h
  split at h
  next r2 heq =>
    split at h
    · cases h
      rw [heq] at hsub
      simp only [List.length_cons] at hsub
      omega
    · cases h
  next => cases h

/-- `re.sub(r"\.([0-9]{0,3})\+", zero_pad_microseconds, whoop_dt)`
(whoop_user.py lines 435-438): left-to-right scan; at each match the
captured digits are left-justified to 3 with `'0'` and the scan resumes
after the matched `'+'`. -/
def zero_pad_microseconds_sub (l : List Char) : List Char :=
  match l with
  | [] => []
  | c :: rest =>
    if c = '.' then
      match hm : scanMatch rest with
      | some (ds, r) =>
        '.' :: (ds ++ List.replicate (3 - ds.length) '0') ++ '+' ::
          zero_pad_microseconds_sub r
      | none => '.' :: zero_pad_microseconds_sub rest
    else c :: zero_pad_microseconds_sub rest
termination_by l.length
decreasing_by
  · exact Nat.lt_succ_of_lt (scanMatch_length hm)
  · exact Nat.lt_succ_self _
  · exact Nat.lt_succ_self _

/-- Head test for the pattern `([\+|\-][0-9]{2}:[0-9]{2})`: a `'+'`, `'|'`
or `'-'`, two digits, a `':'`, two digits. -/
def tzMatchHead : List Char → Bool
  | a :: b :: c :: k :: d :: e :: _ =>
    (a == '+' || a == '|' || a == '-') && b.isDigit && c.isDigit &&
      (k == ':') && d.isDigit && e.isDigit
  | _ => false

/-- `re.sub(r"([\+|\-][0-9]{2}:[0-9]{2})", correct_tz, adjusted_str)`
(whoop_user.py lines 440-443): every match of the six-character timezone
pattern is replaced by `repl` (built from the `tz` argument) and the scan
resumes after the match. -/
def correct_tz_sub (repl : List Char) (l : List Char) : List Char :=
  match l with
  | [] => []
  | c :: rest =>
    if tzMatchHead (c :: rest) then repl ++ correct_tz_sub repl (rest.drop 5)
    else c :: correct_tz_sub repl rest
termination_by l.length
decreasing_by
  · simp only [List.length_drop, List.length_cons]
    omega
  · exact Nat.lt_succ_self _

/-- Two decimal digits, as `int(s[pos:pos+2])` in `_parse_hh_mm_ss_ff`. -/
def twoDigits : List Char → Option (Nat × List Char)
  | a :: b :: rest =>
    if a.isDigit && b.isDigit then some (10 * digitVal a + digitVal b, rest)
    else none
  | _ => none

/-- CPython `_parse_isoformat_date`: exactly `YYYY-MM-DD`. -/
def parse_isoformat_date : List Char → Option (Nat × Nat × Nat)
  | [y1, y2, y3, y4, s1, m1, m2, s2, d1, d2] =>
    if y1.isDigit && y2.isDigit && y3.isDigit && y4.isDigit && (s1 == '-') &&
        m1.isDigit && m2.isDigit && (s2 == '-') && d1.isDigit && d2.isDigit then
      some (1000 * digitVal y1 + 100 * digitVal y2 + 10 * digitVal y3 + digitVal y4,
        10 * digitVal m1 + digitVal m2, 10 * digitVal d1 + digitVal d2)
    else none
  | _ => none

/-- CPython `_parse_hh_mm_ss_ff`: `HH[:MM[:SS[.fff | .ffffff]]]`, the
3-digit fraction scaled to microseconds. -/
def parse_hh_mm_ss_ff (l : List Char) : Option (Nat × Nat × Nat × Nat) :=
  match twoDigits l with
  | none => none
  | some (hh, r1) =>
    match r1 with
    | [] => some (hh, 0, 0, 0)
    | ':' :: r2 =>
      match twoDigits r2 with
      | none => none
      | some (mm, r3) =>
        match r3 with
        | [] => some (hh, mm, 0, 0)
        | ':' :: r4 =>
          match twoDigits r4 with
          | none => none
          | some (ss, r5) =>
            match r5 with
            | [] => some (hh, mm, ss, 0)
            | '.' :: r6 =>
              match r6 with
              | [f1, f2, f3] =>
                if f1.isDigit && f2.isDigit && f3.isDigit then
                  some (hh, mm, ss,
                    (100 * digitVal f1 + 10 * digitVal f2 + digitVal f3) * 1000)
                else none
              | [f1, f2, f3, f4, f5, f6] =>
                if f1.isDigit && f2.isDigit && f3.isDigit && f4.isDigit &&
                    f5.isDigit && f6.isDigit then
                  some (hh, mm, ss,
                    100000 * digitVal f1 + 10000 * digitVal f2 +
                      1000 * digitVal f3 + 100 * digitVal f4 +
                      10 * digitVal f5 + digitVal f6)
                else none
              | _ => none
            | _ => none
        | _ => none
    | _ => none

/-- CPython `_parse_isoformat_time`: the timezone starts after the first
`'-'` (or, failing that, the first `'+'`); the time part is parsed by
`_parse_hh_mm_ss_ff`; the timezone part must have length 5, 8 or 15, is
parsed by the same helper, and yields `timezone.utc` when all components
are zero, else a signed offset (in microseconds) that `timezone` requires
to be strictly within 24 hours. -/
def parse_isoformat_time (tstr : List Char) :
    Option ((Nat × Nat × Nat × Nat) × Option Int) :=
  if tstr.length < 2 then none
  else
    let tz_pos : Nat :=
      match tstr.findIdx? (· == '-') with
      | some i => i + 1
      | none =>
        match tstr.findIdx? (· == '+') with
        | some j => j + 1
        | none => 0
    let timestr := if 0 < tz_pos then tstr.take (tz_pos - 1) else tstr
    match parse_hh_mm_ss_ff timestr with
    | none => none
    | some tc =>
      if tz_pos = 0 then some (tc, none)
      else
        let tzstr := tstr.drop tz_pos
        if tzstr.length = 5 ∨ tzstr.length = 8 ∨ tzstr.length = 15 then
          match parse_hh_mm_ss_ff tzstr with
          | none => none
          | some (th, tm, ts, tf) =>
            if th = 0 ∧ tm = 0 ∧ ts = 0 ∧ tf = 0 then some (tc, some 0)
            else
              let sign : Int :=
                if tstr[tz_pos - 1]? = some '-' then -1 else 1
              let off : Int :=
                sign * (((th * 3600 + tm * 60 + ts : Nat) : Int) * 1000000 + (tf : Nat))
              if -86400000000 < off ∧ off < 86400000000 then some (tc, some off)
              else none
        else none

/-- Whether a year is a leap year (Gregorian). -/
def isLeap (y : Nat) : Bool := y % 4 = 0 && (y % 100 ≠ 0 || y % 400 = 0)

/-- Number of days in a month. -/
def daysInMonth (y m : Nat) : Nat :=
  if m = 2 then (if isLeap y then 29 else 28)
  else if m = 4 ∨ m = 6 ∨ m = 9 ∨ m = 11 then 30 else 31

/-- A Python `datetime.datetime`: validated fields plus an optional UTC
offset in microseconds (`tzinfo`). -/
structure PyDatetime where
  year : Nat
  month : Nat
  day : Nat
  hour : Nat
  minute : Nat
  second : Nat
  microsecond : Nat
  utcoffset : Option Int
  deriving DecidableEq, Repr

/-- CPython (≤ 3.10) `datetime.fromisoformat`: the first 10 characters must
be a valid `YYYY-MM-DD`; the character at index 10 (any separator) is
skipped; the rest, when non-empty, is parsed by `_parse_isoformat_time`;
the `datetime` constructor then validates all field ranges. -/
def fromisoformat (l : List Char) : Option PyDatetime :=
  match parse_isoformat_date (l.take 10) with
  | none => none
  | some (y, m, d) =>
    let tstr := l.drop 11
    let timeRes :=
      if tstr.isEmpty then some ((0, 0, 0, 0), (none : Option Int))
      else parse_isoformat_time tstr
    match timeRes with
    | none => none
    | some ((hh, mi, ss, ff), off) =>
      if 1 ≤ y ∧ y ≤ 9999 ∧ 1 ≤ m ∧ m ≤ 12 ∧ 1 ≤ d ∧ d ≤ daysInMonth y m ∧
          hh ≤ 23 ∧ mi ≤ 59 ∧ ss ≤ 59 ∧ ff ≤ 999999 then
        some ⟨y, m, d, hh, mi, ss, ff, off⟩
      else none

/-- `WhoopUser.convert_whoop_str_to_datetime` (whoop_user.py lines 426-445):
pad the sub-3-digit fractional seconds, rewrite the timezone substring from
the separate `tz` offset field as `f"{tz[:3]}:{tz[3:]}"`, and parse with
`datetime.datetime.fromisoformat`; `none` models the `ValueError`. -/
def convert_whoop_str_to_datetime (whoop_dt tz : List Char) : Option PyDatetime :=
  let adjusted_str := zero_pad_microseconds_sub whoop_dt
  let final_str := correct_tz_sub (tz.take 3 ++ ':' :: tz.drop 3) adjusted_str
  fromisoformat final_str

/-! ## Theorems -/

/-- C10: `WhoopUser.login` with an empty email issues no HTTP request and
raises no error: it fakes the login, setting both the token and the user id
to the empty string; consequently the `"Credentials rejected"` error can
only be raised when the email is non-empty. -/
theorem login_empty_email_fakes_login :
    (∀ (password : String) (resp : HttpResp WhoopLoginBody),
        whoop_login "" password resp = (Except.ok ("", ""), 0))
    ∧ (∀ (email password : String) (resp : HttpResp WhoopLoginBody),
        (whoop_login email password resp).fst = Except.error "Credentials rejected" →
          email ≠ "") := by
  constructor
  · intro password resp
    rfl
  · intro email password resp h hemail
    subst hemail
    simp [whoop_login] at h

/-- Witness for C10 at a concrete rejected login. -/
theorem login_empty_email_fakes_login_witness :
    whoop_login "" "pw" ⟨401, "tok", "uid"⟩ = (Except.ok ("", ""), 0)
    ∧ ("abc" : String) ≠ "" :=
  ⟨login_empty_email_fakes_login.1 "pw" ⟨401, "tok", "uid"⟩,
   login_empty_email_fakes_login.2 "abc" "pw" ⟨401, "tok", "uid"⟩ rfl⟩

/-- C7 counterexample: a cycles GET whose response has the non-success
status 401 does not raise: it proceeds with (returns) the parsed response
body, refuting the claim that every per-endpoint GET raises an
authentication error on non-success status. -/
theorem endpoint_get_proceeds_on_failure_status :
    get_cycles_json (⟨401, "cycles-body"⟩ : HttpResp String) = "cycles-body"
    ∧ (401 : Nat) ≠ 200 :=
  ⟨rfl, by decide⟩

/-- C7 (amended): `login` raises `"Credentials rejected"` exactly when the
POST status is not 200 (for a non-empty email), while the per-endpoint GETs
(cycles, heart rate, health metrics, sports) perform no status check and
return the parsed body unchanged for every status. -/
theorem login_checks_status_endpoint_gets_do_not :
    (∀ (email password : String) (resp : HttpResp WhoopLoginBody),
        email ≠ "" →
        ((whoop_login email password resp).fst = Except.error "Credentials rejected"
          ↔ resp.status_code ≠ 200))
    ∧ (∀ (status : Nat) (body : String),
        get_cycles_json (⟨status, body⟩ : HttpResp String) = body
        ∧ get_heart_rate_json (⟨status, body⟩ : HttpResp String) = body
        ∧ get_health_metrics_json (⟨status, body⟩ : HttpResp String) = body
        ∧ get_sports (⟨status, body⟩ : HttpResp String) = body) := by
  constructor
  · intro email password resp hemail
    have hlen : email.length ≠ 0 := fun h => hemail (by
      cases email with
      | mk data => simp [String.length] at h; simp [h])
    by_cases hs : resp.status_code = 200
    · simp [whoop_login, hlen, hs]
    · simp [whoop_login, hlen, hs]
  · intro status body
    exact ⟨rfl, rfl, rfl, rfl⟩

/-- Witness for C7's amended theorem at a concrete non-success response. -/
theorem login_checks_status_endpoint_gets_do_not_witness :
    (("abc" : String) ≠ "")
    ∧ ((whoop_login "abc" "pw" ⟨500, "tok", "uid"⟩).fst
          = Except.error "Credentials rejected" ↔ (500 : Nat) ≠ 200)
    ∧ get_cycles_json (⟨500, "b"⟩ : HttpResp String) = "b" :=
  ⟨by decide,
   login_checks_status_endpoint_gets_do_not.1 "abc" "pw" ⟨500, "tok", "uid"⟩ (by decide),
   (login_checks_status_endpoint_gets_do_not.2 500 "b").1⟩

/-- C2: contrary to the claim, no real-mode fetch ever receives the
caller's (or the default) window: `_get_real` reads
`init_params["start_date"]` and `init_params["end_date"]`, which
`__init__` never stores (it stores only `seed` and the synthetic range),
so the lookup fails (`KeyError`) for every caller-supplied window, and
real-mode `get_data` on any supported data type surfaces that error
without issuing a fetch. -/
theorem get_real_never_sees_caller_window :
    ∀ (seed s e : Int) (data_type : String) (p : FParams)
      (fetch : String → Int → Int → List DataRec),
      get_real_call (fitbit_sense_init seed s e) data_type p = none
      ∧ (data_type ∈ fitbit_sense_data_types →
          get_data fetch { fitbit_sense_init seed s e with synthetic := false }
              data_type (some p)
            = (Except.error DevError.keyError,
               { fitbit_sense_init seed s e with synthetic := false })) := by
  intro seed s e data_type p fetch
  have hlook : ∀ st : DeviceState,
      st.init_params = (fitbit_sense_init seed s e).init_params →
      get_real_call st data_type p = none := by
    intro st hst
    simp [get_real_call, hst, fitbit_sense_init, initialize_device_params,
      List.lookup]
  refine ⟨hlook _ rfl, fun hmem => ?_⟩
  have h2 := hlook { fitbit_sense_init seed s e with synthetic := false } rfl
  have hval : data_type ∈
      ({ fitbit_sense_init seed s e with synthetic := false }).valid_data_types := hmem
  simp [get_data, hval, h2]

/-- Witness for C2 at a concrete device and window. -/
theorem get_real_never_sees_caller_window_witness :
    ("steps" ∈ fitbit_sense_data_types)
    ∧ get_data (fun _ _ _ => []) { fitbit_sense_init 7 0 3 with synthetic := false }
          "steps" (some ⟨1, 2⟩)
        = (Except.error DevError.keyError,
           { fitbit_sense_init 7 0 3 with synthetic := false }) :=
  ⟨by decide,
   (get_real_never_sees_caller_window 7 0 3 "steps" ⟨1, 2⟩ (fun _ _ _ => [])).2 (by decide)⟩

/-- Evaluation of a fresh synthetic-mode `get_data` call on a supported
data type: it generates the series, stores all ten as attributes, filters
(vacuously) and returns the full generated series. -/
theorem get_data_synthetic_eval (seed s e : Int)
    (fetch : String → Int → Int → List DataRec) (data_type : String)
    (p : Option FParams) (hmem : data_type ∈ fitbit_sense_data_types) :
    get_data fetch (fitbit_sense_init seed s e) data_type p
      = (Except.ok (create_syn_data seed s e data_type),
         { fitbit_sense_init seed s e with attrs := fitbit_syn_attrs seed s e }) := by
  fin_cases hmem <;>
    simp [get_data, fitbit_sense_init, fitbit_sense_data_types, gen_synthetic,
      filter_synthetic, initialize_device_params, fitbit_syn_attrs,
      seed_everything, List.lookup]

/-- Evaluation of a synthetic-mode `get_data` call on a device that already
carries generated attributes: the stored series is reused and the state is
unchanged. -/
theorem get_data_synthetic_cached (seed s e : Int)
    (fetch : String → Int → Int → List DataRec) (data_type : String)
    (p : Option FParams) (hmem : data_type ∈ fitbit_sense_data_types) :
    get_data fetch
        { fitbit_sense_init seed s e with attrs := fitbit_syn_attrs seed s e }
        data_type p
      = (Except.ok (create_syn_data seed s e data_type),
         { fitbit_sense_init seed s e with attrs := fitbit_syn_attrs seed s e }) := by
  fin_cases hmem <;>
    simp [get_data, fitbit_sense_init, fitbit_sense_data_types, gen_synthetic,
      filter_synthetic, initialize_device_params, fitbit_syn_attrs,
      seed_everything, List.lookup]

/-- C4: `get_data` fails with the unsupported-data-type error exactly for
the data types outside the declared supported set of `Fitbit_sense`. -/
theorem get_data_unsupported_iff :
    ∀ (seed s e : Int) (fetch : String → Int → Int → List DataRec)
      (data_type : String) (p : Option FParams),
      (get_data fetch (fitbit_sense_init seed s e) data_type p).fst
          = Except.error DevError.unsupportedDataType
        ↔ data_type ∉ fitbit_sense_data_types := by
  intro seed s e fetch data_type p
  by_cases hmem : data_type ∈ fitbit_sense_data_types
  · rw [get_data_synthetic_eval seed s e fetch data_type p hmem]
    simp [hmem]
  · have hval : data_type ∉ (fitbit_sense_init seed s e).valid_data_types := hmem
    simp [get_data, hval, hmem]

/-- C3: the synthetic-generation path is a function of the seed and the
synthetic date range only: any two device states that agree on
`init_params` and on the RNG state captured at construction generate
identical data for every data type; construction with a given seed
captures `seed_everything seed`; and devices constructed with different
seeds can generate different data. -/
theorem gen_synthetic_deterministic :
    (∀ st1 st2 : DeviceState,
        st1.init_params = st2.init_params → st1.rngState = st2.rngState →
        (gen_synthetic st1).map DeviceState.attrs
          = (gen_synthetic st2).map DeviceState.attrs)
    ∧ (∀ seed s e : Int,
        (fitbit_sense_init seed s e).rngState = seed_everything seed)
    ∧ (gen_synthetic (fitbit_sense_init 0 0 0)).map DeviceState.attrs
        ≠ (gen_synthetic (fitbit_sense_init 1 0 0)).map DeviceState.attrs := by
  refine ⟨?_, fun seed s e => rfl, by decide⟩
  intro st1 st2 h1 h2
  unfold gen_synthetic
  rw [h1, h2]
  rcases hs : st2.init_params.lookup "synthetic_start_date" with _ | v1
  · rfl
  · rcases he : st2.init_params.lookup "synthetic_end_date" with _ | v2
    · cases v1 <;> rfl
    · cases v1 <;> cases v2 <;> rfl

/-- Witness for C3: two identically-configured devices generate the same
data. -/
theorem gen_synthetic_deterministic_witness :
    (gen_synthetic (fitbit_sense_init 0 0 1)).map DeviceState.attrs
      = (gen_synthetic (fitbit_sense_init 0 0 1)).map DeviceState.attrs :=
  gen_synthetic_deterministic.1 (fitbit_sense_init 0 0 1) (fitbit_sense_init 0 0 1)
    rfl rfl

/-- C5 counterexample: the first synthetic-mode `get_data` call stores the
generated series in the device state (the `steps` attribute is set after
the call, where it was unset before), refuting the claim that no
`get_data` call stores the generated series in the device's state. -/
theorem get_data_stores_generated_series :
    (fitbit_sense_init 0 0 2).attrs.lookup "steps" = none
    ∧ ((get_data (fun _ _ _ => []) (fitbit_sense_init 0 0 2) "steps"
          (some ⟨0, 1⟩)).snd.attrs.lookup "steps"
        = some (create_syn_data 0 0 2 "steps")) := by decide

/-- C5 (amended): `get_data` is not cache-free: in synthetic mode the first
call stores the ten generated series as device attributes and a second
identical call reuses the stored state unchanged, returning the same
result; in real mode nothing is stored (the device state is unchanged by
every call). -/
theorem get_data_caches_synthetic_series :
    ∀ (seed s e : Int) (data_type : String) (p : Option FParams)
      (fetch : String → Int → Int → List DataRec),
      data_type ∈ fitbit_sense_data_types →
      ((get_data fetch (fitbit_sense_init seed s e) data_type p).snd.attrs ≠ []
        ∧ get_data fetch
              (get_data fetch (fitbit_sense_init seed s e) data_type p).snd
              data_type p
            = get_data fetch (fitbit_sense_init seed s e) data_type p)
      ∧ (∀ st : DeviceState, st.synthetic = false →
          (get_data fetch st data_type p).snd = st) := by
  intro seed s e data_type p fetch hmem
  have h1 := get_data_synthetic_eval seed s e fetch data_type p hmem
  refine ⟨⟨?_, ?_⟩, ?_⟩
  · rw [h1]
    simp [fitbit_syn_attrs]
  · rw [h1]
    exact get_data_synthetic_cached seed s e fetch data_type p hmem
  · intro st hsyn
    by_cases hval : data_type ∈ st.valid_data_types
    · simp only [get_data, if_pos hval, hsyn]
      simp only [Bool.false_eq_true, if_false]
      split <;> rfl
    · simp [get_data, hval]

/-- Witness for C5's amended theorem at a concrete device. -/
theorem get_data_caches_synthetic_series_witness :
    ("steps" ∈ fitbit_sense_data_types)
    ∧ ((get_data (fun _ _ _ => []) (fitbit_sense_init 0 0 1) "steps" none).snd.attrs ≠ []
      ∧ get_data (fun _ _ _ => [])
            (get_data (fun _ _ _ => []) (fitbit_sense_init 0 0 1) "steps" none).snd
            "steps" none
          = get_data (fun _ _ _ => []) (fitbit_sense_init 0 0 1) "steps" none) :=
  ⟨by decide,
   (get_data_caches_synthetic_series 0 0 1 "steps" none (fun _ _ _ => [])
      (by decide)).1⟩

/-- C1: `_filter_synthetic` does not filter: on a window lying strictly
inside the synthetic range (range days 0..5, window days 1..3) it returns
the full synthetic series unchanged, including a record dated before the
window start, rather than the in-window slice the claim (and the function's
own dead index computation) describes. -/
theorem filter_synthetic_returns_full_series :
    filter_synthetic (fitbit_sense_init 0 0 5) (create_syn_data 0 0 5 "steps")
        "steps" ⟨1, 3⟩
      = some (create_syn_data 0 0 5 "steps")
    ∧ (∃ r ∈ create_syn_data 0 0 5 "steps", r.lookup "dateTime" = some 0)
    ∧ ((0 : Int) < 1) := by decide

/-- Every synthetic record exposes its day under `"dateTime"`. -/
theorem mkSynRecord_lookup_dateTime (data_type : String) (rng day : Int) :
    (mkSynRecord data_type rng day).lookup "dateTime" = some day := by
  simp [mkSynRecord, List.lookup]

/-- Every synthetic record carries the expected field for its data type. -/
theorem mkSynRecord_lookup_expected (data_type : String) (rng day : Int) :
    (mkSynRecord data_type rng day).lookup (expectedField data_type)
      = some (synValue rng day) := by
  by_cases h : data_type = "sleep" <;>
    simp [mkSynRecord, expectedField, h, List.lookup]

/-- The synthetic series contains the record of every day of the range. -/
theorem mkSynRecord_mem_create_syn_data (rng : Int) {s e day : Int}
    (data_type : String) (h1 : s ≤ day) (h2 : day ≤ e) :
    mkSynRecord data_type rng day ∈ create_syn_data rng s e data_type := by
  unfold create_syn_data
  rw [List.mem_map]
  refine ⟨(day - s).toNat, ?_, ?_⟩
  · rw [List.mem_range]
    omega
  · congr 1
    omega

/-- Every element of the synthetic series is a per-day synthetic record. -/
theorem create_syn_data_forall (rng s e : Int) (data_type : String) :
    ∀ r ∈ create_syn_data rng s e data_type,
      ∃ day : Int, r = mkSynRecord data_type rng day := by
  intro r hr
  unfold create_syn_data at hr
  rw [List.mem_map] at hr
  obtain ⟨i, _, hi⟩ := hr
  exact ⟨s + i, hi.symm⟩

/-- The synthetic series of a non-empty range is non-empty. -/
theorem create_syn_data_ne_nil {rng s e : Int} (data_type : String)
    (h : s ≤ e) : create_syn_data rng s e data_type ≠ [] := by
  unfold create_syn_data
  simp only [ne_eq, List.map_eq_nil_iff, List.range_eq_nil]
  omega

/-- C9: for every supported data type and every window inside the synthetic
range, `get_data` returns a non-empty sequence of records, every record
carries the expected field for the type, and every day of the window is
covered by at least one record. -/
theorem get_data_covers_window :
    ∀ (seed s e ws we : Int) (data_type : String)
      (fetch : String → Int → Int → List DataRec),
      data_type ∈ fitbit_sense_data_types →
      s ≤ ws → ws ≤ we → we ≤ e →
      ∃ out,
        (get_data fetch (fitbit_sense_init seed s e) data_type
            (some ⟨ws, we⟩)).fst = Except.ok out
        ∧ out ≠ []
        ∧ (∀ r ∈ out, r.lookup (expectedField data_type) ≠ none)
        ∧ (∀ day : Int, ws ≤ day → day ≤ we →
            ∃ r ∈ out, r.lookup "dateTime" = some day) := by
  intro seed s e ws we data_type fetch hmem h1 h2 h3
  refine ⟨create_syn_data seed s e data_type, ?_, ?_, ?_, ?_⟩
  · rw [get_data_synthetic_eval seed s e fetch data_type _ hmem]
  · exact create_syn_data_ne_nil data_type (by omega)
  · intro r hr
    obtain ⟨day, rfl⟩ := create_syn_data_forall seed s e data_type r hr
    rw [mkSynRecord_lookup_expected]
    simp
  · intro day hd1 hd2
    exact ⟨mkSynRecord data_type seed day,
      mkSynRecord_mem_create_syn_data seed data_type (by omega) (by omega),
      mkSynRecord_lookup_dateTime data_type seed day⟩

/-- Witness for C9 at the concrete example window. -/
theorem get_data_covers_window_witness :
    ((0 : Int) ≤ 1 ∧ (1 : Int) ≤ 3 ∧ (3 : Int) ≤ 4
      ∧ "steps" ∈ fitbit_sense_data_types)
    ∧ ∃ out,
        (get_data (fun _ _ _ => []) (fitbit_sense_init 0 0 4) "steps"
            (some ⟨1, 3⟩)).fst = Except.ok out
        ∧ out ≠ []
        ∧ (∀ r ∈ out, r.lookup (expectedField "steps") ≠ none)
        ∧ (∀ day : Int, 1 ≤ day → day ≤ 3 →
            ∃ r ∈ out, r.lookup "dateTime" = some day) :=
  ⟨⟨by decide, by decide, by decide, by decide⟩,
   get_data_covers_window 0 0 4 1 3 "steps" (fun _ _ _ => [])
     (by decide) (by decide) (by decide) (by decide)⟩

/-- Folding list-append over an accumulator is concatenation of the mapped
blocks. -/
theorem foldl_append_eq_join {α β : Type} (f : β → List α) (l : List β) :
    ∀ init : List α,
      l.foldl (fun acc b => acc ++ f b) init = init ++ (l.map f).join := by
  induction l with
  | nil => intro init; simp
  | cons b t ih => intro init; simp [ih, List.append_assoc]

/-- C6 counterexample: for the 10-day window `[0, 864000]` (in seconds,
exceeding the 7-day limit) the split is two exactly-7-day windows whose
union reaches 1209600, so the point 1000000 is covered by the sub-windows
but lies outside the requested window: the sub-windows do not cover
exactly the requested window. -/
theorem split_windows_overshoot :
    split_into_weeklong_params 1000000000 (0, 864000)
        = [(0, 604800), (604800, 1209600)]
    ∧ ((604800 : Int) ≤ 1000000 ∧ (1000000 : Int) ≤ 1209600)
    ∧ ¬((1000000 : Int) ≤ 864000) := by decide

/-- C6 (amended): for a window of more than 7 days (with end not in the
future), `get_heart_rate_df` splits it into `ceil(d / 7)` consecutive
sub-windows of exactly 7 days each (`d` the whole-day length of the
window), the `i`-th starting at `start + 7*i` days; it issues one request
per sub-window in order and returns the concatenation of the results in
that order; the union of the sub-windows is the interval from `start` to
`start + 7*ceil(d/7)` days, which contains the requested window whenever
its length is a whole number of days, but in general differs from it. -/
theorem heart_rate_split_window (now s e : Int) (fetch : Int × Int → List Int)
    (hnow : e ≤ now) (hgt : s + 604800 < e) :
    (split_into_weeklong_params now (s, e)).length
        = (ceilDiv7 ((e - s).fdiv 86400)).toNat
    ∧ (∀ i : Nat, i < (ceilDiv7 ((e - s).fdiv 86400)).toNat →
        (split_into_weeklong_params now (s, e))[i]?
          = some (s + 604800 * (i : Int), s + 604800 * ((i : Int) + 1)))
    ∧ get_heart_rate_values fetch now (s, e)
        = ((split_into_weeklong_params now (s, e)).map fetch).join
    ∧ (∀ x : Int,
        (∃ seg ∈ split_into_weeklong_params now (s, e),
            seg.fst ≤ x ∧ x ≤ seg.snd)
          ↔ s ≤ x ∧ x ≤ s + 604800 * ((ceilDiv7 ((e - s).fdiv 86400)).toNat : Int))
    ∧ ((86400 : Int) ∣ (e - s) →
        e ≤ s + 604800 * ((ceilDiv7 ((e - s).fdiv 86400)).toNat : Int)) := by
  have hfd : (e - s).fdiv 86400 = (e - s) / 86400 :=
    Int.fdiv_eq_ediv _ (by norm_num)
  have hfd7 : ceilDiv7 ((e - s).fdiv 86400)
      = -(-((e - s) / 86400) / 7) := by
    rw [ceilDiv7, hfd, Int.fdiv_eq_ediv _ (by norm_num)]
  have hsplit : split_into_weeklong_params now (s, e)
      = (List.range (ceilDiv7 ((e - s).fdiv 86400)).toNat).map fun (i : Nat) =>
          (s + 604800 * (i : Int), s + 604800 * ((i : Int) + 1)) := by
    unfold split_into_weeklong_params
    simp only [if_neg (not_lt.mpr hnow)]
  have hn1 : 1 ≤ (ceilDiv7 ((e - s).fdiv 86400)).toNat := by
    rw [hfd7]
    omega
  refine ⟨?_, ?_, ?_, ?_, ?_⟩
  · rw [hsplit]
    simp
  · intro i hi
    rw [hsplit]
    simp [List.getElem?_range, hi]
  · unfold get_heart_rate_values
    rw [foldl_append_eq_join]
    simp
  · intro x
    rw [hsplit]
    constructor
    · rintro ⟨seg, hseg, hx1, hx2⟩
      rw [List.mem_map] at hseg
      obtain ⟨i, hir, rfl⟩ := hseg
      rw [List.mem_range] at hir
      simp only at hx1 hx2
      rw [hfd7] at *
      omega
    · rintro ⟨hx1, hx2⟩
      by_cases hq : (x - s) / 604800 < ((ceilDiv7 ((e - s).fdiv 86400)).toNat : Int)
      · refine ⟨(s + 604800 * (((x - s) / 604800).toNat : Int),
          s + 604800 * ((((x - s) / 604800).toNat : Int) + 1)),
          List.mem_map.mpr ⟨((x - s) / 604800).toNat,
            List.mem_range.mpr (by rw [hfd7] at *; omega), rfl⟩, by omega, by omega⟩
      · refine ⟨(s + 604800 * (((ceilDiv7 ((e - s).fdiv 86400)).toNat - 1 : Nat) : Int),
          s + 604800 * ((((ceilDiv7 ((e - s).fdiv 86400)).toNat - 1 : Nat) : Int) + 1)),
          List.mem_map.mpr ⟨(ceilDiv7 ((e - s).fdiv 86400)).toNat - 1,
            List.mem_range.mpr (by omega), rfl⟩, by omega, by omega⟩
  · intro hdvd
    rw [hfd7]
    obtain ⟨k, hk⟩ := hdvd
    omega

/-- Witness for C6's amended theorem at the concrete 10-day window. -/
theorem heart_rate_split_window_witness :
    ((864000 : Int) ≤ 1000000000 ∧ (0 : Int) + 604800 < 864000)
    ∧ (split_into_weeklong_params 1000000000 (0, 864000)).length
        = (ceilDiv7 (((864000 : Int) - 0).fdiv 86400)).toNat :=
  ⟨⟨by decide, by decide⟩,
   (heart_rate_split_window 1000000000 0 864000 (fun _ => [])
      (by decide) (by decide)).1⟩

/-! ### Character-class facts for the timestamp rewriting -/

/-- A digit character is none of the structural characters of a whoop
timestamp. -/
theorem digit_ne_special {c : Char} (h : c.isDigit = true) :
    c ≠ '.' ∧ c ≠ '+' ∧ c ≠ '|' ∧ c ≠ '-' ∧ c ≠ ':' := by
  refine ⟨?_, ?_, ?_, ?_, ?_⟩ <;> (rintro rfl; exact absurd h (by decide))

/-- Boolean forms of `digit_ne_special` for `==`-based tests. -/
theorem digit_beq_special_false {c : Char} (h : c.isDigit = true) :
    (c == '.') = false ∧ (c == '+') = false ∧ (c == '|') = false
      ∧ (c == '-') = false ∧ (c == ':') = false := by
  obtain ⟨h1, h2, h3, h4, h5⟩ := digit_ne_special h
  refine ⟨?_, ?_, ?_, ?_, ?_⟩ <;> simp [*]

/-- A digit character fails the sign test of the timezone pattern. -/
theorem digit_not_sign {c : Char} (h : c.isDigit = true) :
    (c == '+' || c == '|' || c == '-') = false := by
  obtain ⟨-, h2, h3, h4, -⟩ := digit_beq_special_false h
  simp [h2, h3, h4]

/-! ### Stepping lemmas for the zero-padding pass -/

/-- The zero-padding scan leaves a non-`'.'` head character in place. -/
theorem zero_pad_skip {c : Char} {l : List Char} (hc : c ≠ '.') :
    zero_pad_microseconds_sub (c :: l) = c :: zero_pad_microseconds_sub l := by
  rw [zero_pad_microseconds_sub.eq_def]
  simp [hc]

/-- The zero-padding scan walks over a dot-free prefix. -/
theorem zero_pad_append (pre l : List Char) (hp : ∀ c ∈ pre, c ≠ '.') :
    zero_pad_microseconds_sub (pre ++ l) = pre ++ zero_pad_microseconds_sub l := by
  induction pre with
  | nil => simp
  | cons c p ih =>
    simp only [List.cons_append]
    rw [zero_pad_skip (hp c (by simp)), ih (fun d hd => hp d (by simp [hd]))]

/-- A digit block followed by `'+'` splits as expected under
`takeWhile`/`dropWhile`. -/
theorem takeWhile_digits_plus (ds r : List Char)
    (hds : ∀ c ∈ ds, c.isDigit = true) :
    (ds ++ '+' :: r).takeWhile Char.isDigit = ds
    ∧ (ds ++ '+' :: r).dropWhile Char.isDigit = '+' :: r := by
  induction ds with
  | nil => simp [List.takeWhile, List.dropWhile]
  | cons c p ih =>
    have hc : c.isDigit = true := hds c (by simp)
    obtain ⟨ht, hd⟩ := ih (fun d hd => hds d (by simp [hd]))
    simp [List.takeWhile_cons, List.dropWhile_cons, hc, ht, hd]

/-- On a digit block of at most three digits followed by `'+'`, the matcher
fires and captures the digits. -/
theorem scanMatch_digits_plus (ds r : List Char)
    (hds : ∀ c ∈ ds, c.isDigit = true) (hlen : ds.length ≤ 3) :
    scanMatch (ds ++ '+' :: r) = some (ds, r) := by
  obtain ⟨ht, hd⟩ := takeWhile_digits_plus ds r hds
  unfold scanMatch
  rw [ht, hd]
  simp [hlen]

/-- A matched fractional-seconds block is padded to three digits and the
scan resumes after the `'+'`. -/
theorem zero_pad_match (l ds r : List Char) (h : scanMatch l = some (ds, r)) :
    zero_pad_microseconds_sub ('.' :: l)
      = '.' :: (ds ++ List.replicate (3 - ds.length) '0') ++ '+' ::
          zero_pad_microseconds_sub r := by
  rw [zero_pad_microseconds_sub.eq_def]
  split
  next heq => exact absurd heq (by simp)
  next c rest heq =>
    injection heq with h1 h2
    subst h1
    subst h2
    rw [if_pos rfl]
    split
    next ds2 r2 hm =>
      rw [h] at hm
      injection hm with hm2
      injection hm2 with h1 h2
      subst h1
      subst h2
      simp
    next hm =>
      rw [h] at hm
      cases hm

/-- The zero-padding scan leaves `"00:00"` unchanged. -/
theorem zero_pad_tail_fixed :
    zero_pad_microseconds_sub ['0', '0', ':', '0', '0'] = ['0', '0', ':', '0', '0'] := by
  rw [zero_pad_skip (by decide), zero_pad_skip (by decide),
    zero_pad_skip (by decide), zero_pad_skip (by decide),
    zero_pad_skip (by decide), zero_pad_microseconds_sub.eq_def]

/-! ### Stepping lemmas for the timezone-rewriting pass -/

/-- The timezone scan leaves the head in place when the pattern does not
match there. -/
theorem tz_skip (repl : List Char) {c : Char} {l : List Char}
    (h : tzMatchHead (c :: l) = false) :
    correct_tz_sub repl (c :: l) = c :: correct_tz_sub repl l := by
  rw [correct_tz_sub.eq_def]
  simp [h]

/-- The timezone scan replaces a match and resumes after it. -/
theorem tz_replace (repl : List Char) {c : Char} {l : List Char}
    (h : tzMatchHead (c :: l) = true) :
    correct_tz_sub repl (c :: l) = repl ++ correct_tz_sub repl (l.drop 5) := by
  rw [correct_tz_sub.eq_def]
  simp [h]

/-- The timezone pattern cannot match at a head that is not a sign
character. -/
theorem tzMatchHead_not_sign {c : Char} {l : List Char}
    (h : (c == '+' || c == '|' || c == '-') = false) :
    tzMatchHead (c :: l) = false := by
  rcases l with _ | ⟨b, _ | ⟨c2, _ | ⟨k, _ | ⟨d, _ | ⟨e, rest⟩⟩⟩⟩⟩ <;>
    simp [tzMatchHead, h]

/-- The timezone pattern cannot match when the fourth character is not a
colon. -/
theorem tzMatchHead_not_colon {a b c k d e : Char} {rest : List Char}
    (h : (k == ':') = false) :
    tzMatchHead (a :: b :: c :: k :: d :: e :: rest) = false := by
  simp [tzMatchHead, h]

/-- The timezone pattern matches at the normalized `+dd:dd` site. -/
theorem tzMatchHead_found {b c d e : Char} {rest : List Char}
    (hb : b.isDigit = true) (hc : c.isDigit = true)
    (hd : d.isDigit = true) (he : e.isDigit = true) :
    tzMatchHead ('+' :: b :: c :: ':' :: d :: e :: rest) = true := by
  simp [tzMatchHead, hb, hc, hd, he]

/-- The timezone scan of the empty list is empty. -/
theorem tz_nil (repl : List Char) : correct_tz_sub repl [] = [] := by
  rw [correct_tz_sub.eq_def]

/-- Numeric bounds of a digit character's value. -/
theorem digit_toNat_bounds {c : Char} (h : c.isDigit = true) :
    48 ≤ c.toNat ∧ c.toNat ≤ 57 := by
  simp only [Char.isDigit, Bool.and_eq_true, decide_eq_true_eq, ge_iff_le] at h
  obtain ⟨h1, h2⟩ := h
  exact ⟨UInt32.le_toNat_of_le (by norm_num [UInt32.size]) h1,
    UInt32.toNat_le_of_le (by norm_num [UInt32.size]) h2⟩

/-- A digit character's decimal value is at most nine. -/
theorem digitVal_le_nine {c : Char} (h : c.isDigit = true) : digitVal c ≤ 9 := by
  obtain ⟨h1, h2⟩ := digit_toNat_bounds h
  unfold digitVal
  omega

/-- The timezone rewriting pass on the fully normalized timestamp: it walks
over the date-time prefix (no match is possible there) and replaces the
single `+00:00` site with the replacement string. -/
theorem tz_walk (repl : List Char)
    (y1 y2 y3 y4 mo1 mo2 d1 d2 h1 h2 n1 n2 s1 s2 p1 p2 p3 : Char)
    (hy1 : y1.isDigit = true) (hy2 : y2.isDigit = true)
    (hy3 : y3.isDigit = true) (hy4 : y4.isDigit = true)
    (hmo1 : mo1.isDigit = true) (hmo2 : mo2.isDigit = true)
    (hd1 : d1.isDigit = true) (hd2 : d2.isDigit = true)
    (hh1 : h1.isDigit = true) (hh2 : h2.isDigit = true)
    (hn1 : n1.isDigit = true) (hn2 : n2.isDigit = true)
    (hs1 : s1.isDigit = true) (hs2 : s2.isDigit = true)
    (hp1 : p1.isDigit = true) (hp2 : p2.isDigit = true)
    (hp3 : p3.isDigit = true) :
    correct_tz_sub repl
        [y1, y2, y3, y4, '-', mo1, mo2, '-', d1, d2, 'T', h1, h2, ':',
         n1, n2, ':', s1, s2, '.', p1, p2, p3, '+', '0', '0', ':', '0', '0']
      = [y1, y2, y3, y4, '-', mo1, mo2, '-', d1, d2, 'T', h1, h2, ':',
         n1, n2, ':', s1, s2, '.', p1, p2, p3] ++ repl := by
  rw [tz_skip repl (tzMatchHead_not_sign (digit_not_sign hy1))]
  rw [tz_skip repl (tzMatchHead_not_sign (digit_not_sign hy2))]
  rw [tz_skip repl (tzMatchHead_not_sign (digit_not_sign hy3))]
  rw [tz_skip repl (tzMatchHead_not_sign (digit_not_sign hy4))]
  rw [tz_skip repl (@tzMatchHead_not_colon '-' mo1 mo2 '-' d1 d2 _ (by decide))]
  rw [tz_skip repl (tzMatchHead_not_sign (digit_not_sign hmo1))]
  rw [tz_skip repl (tzMatchHead_not_sign (digit_not_sign hmo2))]
  rw [tz_skip repl (@tzMatchHead_not_colon '-' d1 d2 'T' h1 h2 _ (by decide))]
  rw [tz_skip repl (tzMatchHead_not_sign (digit_not_sign hd1))]
  rw [tz_skip repl (tzMatchHead_not_sign (digit_not_sign hd2))]
  rw [tz_skip repl (@tzMatchHead_not_sign 'T' _ (by decide))]
  rw [tz_skip repl (tzMatchHead_not_sign (digit_not_sign hh1))]
  rw [tz_skip repl (tzMatchHead_not_sign (digit_not_sign hh2))]
  rw [tz_skip repl (@tzMatchHead_not_sign ':' _ (by decide))]
  rw [tz_skip repl (tzMatchHead_not_sign (digit_not_sign hn1))]
  rw [tz_skip repl (tzMatchHead_not_sign (digit_not_sign hn2))]
  rw [tz_skip repl (@tzMatchHead_not_sign ':' _ (by decide))]
  rw [tz_skip repl (tzMatchHead_not_sign (digit_not_sign hs1))]
  rw [tz_skip repl (tzMatchHead_not_sign (digit_not_sign hs2))]
  rw [tz_skip repl (@tzMatchHead_not_sign '.' _ (by decide))]
  rw [tz_skip repl (tzMatchHead_not_sign (digit_not_sign hp1))]
  rw [tz_skip repl (tzMatchHead_not_sign (digit_not_sign hp2))]
  rw [tz_skip repl (tzMatchHead_not_sign (digit_not_sign hp3))]
  rw [tz_replace repl (@tzMatchHead_found '0' '0' '0' '0' _
    (by decide) (by decide) (by decide) (by decide))]
  simp [tz_nil]

/-- The zero-padding pass on a whoop timestamp with a sub-3-digit
fractional part: the date-time prefix is unchanged, the fraction is
right-padded with zeros to three digits, and the `+00:00` tail is
unchanged. -/
theorem zero_pad_whoop
    (y1 y2 y3 y4 mo1 mo2 d1 d2 h1 h2 n1 n2 s1 s2 : Char) (frac : List Char)
    (hy1 : y1.isDigit = true) (hy2 : y2.isDigit = true)
    (hy3 : y3.isDigit = true) (hy4 : y4.isDigit = true)
    (hmo1 : mo1.isDigit = true) (hmo2 : mo2.isDigit = true)
    (hd1 : d1.isDigit = true) (hd2 : d2.isDigit = true)
    (hh1 : h1.isDigit = true) (hh2 : h2.isDigit = true)
    (hn1 : n1.isDigit = true) (hn2 : n2.isDigit = true)
    (hs1 : s1.isDigit = true) (hs2 : s2.isDigit = true)
    (hfrac : ∀ c ∈ frac, c.isDigit = true) (hlen : frac.length ≤ 2) :
    zero_pad_microseconds_sub
        ([y1, y2, y3, y4, '-', mo1, mo2, '-', d1, d2, 'T', h1, h2, ':',
          n1, n2, ':', s1, s2]
          ++ '.' :: (frac ++ '+' :: ['0', '0', ':', '0', '0']))
      = [y1, y2, y3, y4, '-', mo1, mo2, '-', d1, d2, 'T', h1, h2, ':',
         n1, n2, ':', s1, s2]
          ++ '.' :: ((frac ++ List.replicate (3 - frac.length) '0')
              ++ '+' :: ['0', '0', ':', '0', '0']) := by
  have hpre : ∀ c ∈ [y1, y2, y3, y4, '-', mo1, mo2, '-', d1, d2, 'T', h1, h2,
      ':', n1, n2, ':', s1, s2], c ≠ '.' := by
    intro c hc
    simp only [List.mem_cons, List.not_mem_nil, or_false] at hc
    rcases hc with rfl | rfl | rfl | rfl | rfl | rfl | rfl | rfl | rfl | rfl |
      rfl | rfl | rfl | rfl | rfl | rfl | rfl | rfl | rfl
    all_goals first
      | decide
      | exact (digit_ne_special (by assumption)).1
  rw [zero_pad_append _ _ hpre]
  rw [zero_pad_match _ _ _ (scanMatch_digits_plus frac _ hfrac (by omega))]
  rw [zero_pad_tail_fixed]
  simp

/-- Evaluation of the date parser on a well-formed `YYYY-MM-DD` block. -/
theorem parse_isoformat_date_digits {y1 y2 y3 y4 m1 m2 d1 d2 : Char}
    (hy1 : y1.isDigit = true) (hy2 : y2.isDigit = true)
    (hy3 : y3.isDigit = true) (hy4 : y4.isDigit = true)
    (hm1 : m1.isDigit = true) (hm2 : m2.isDigit = true)
    (hd1 : d1.isDigit = true) (hd2 : d2.isDigit = true) :
    parse_isoformat_date [y1, y2, y3, y4, '-', m1, m2, '-', d1, d2]
      = some (1000 * digitVal y1 + 100 * digitVal y2 + 10 * digitVal y3
            + digitVal y4,
          10 * digitVal m1 + digitVal m2, 10 * digitVal d1 + digitVal d2) := by
  simp [parse_isoformat_date, hy1, hy2, hy3, hy4, hm1, hm2, hd1, hd2]

/-- Evaluation of the time parser on `HH:MM:SS.fff`. -/
theorem parse_hh_mm_ss_ff_full {h1 h2 n1 n2 s1 s2 p1 p2 p3 : Char}
    (hh1 : h1.isDigit = true) (hh2 : h2.isDigit = true)
    (hn1 : n1.isDigit = true) (hn2 : n2.isDigit = true)
    (hs1 : s1.isDigit = true) (hs2 : s2.isDigit = true)
    (hp1 : p1.isDigit = true) (hp2 : p2.isDigit = true)
    (hp3 : p3.isDigit = true) :
    parse_hh_mm_ss_ff [h1, h2, ':', n1, n2, ':', s1, s2, '.', p1, p2, p3]
      = some (10 * digitVal h1 + digitVal h2, 10 * digitVal n1 + digitVal n2,
          10 * digitVal s1 + digitVal s2,
          (100 * digitVal p1 + 10 * digitVal p2 + digitVal p3) * 1000) := by
  simp [parse_hh_mm_ss_ff, twoDigits, hh1, hh2, hn1, hn2, hs1, hs2, hp1, hp2, hp3]

/-- Evaluation of the time parser on an `HH:MM` timezone block. -/
theorem parse_hh_mm_ss_ff_tz {a1 a2 b1 b2 : Char}
    (ha1 : a1.isDigit = true) (ha2 : a2.isDigit = true)
    (hb1 : b1.isDigit = true) (hb2 : b2.isDigit = true) :
    parse_hh_mm_ss_ff [a1, a2, ':', b1, b2]
      = some (10 * digitVal a1 + digitVal a2, 10 * digitVal b1 + digitVal b2,
          0, 0) := by
  simp [parse_hh_mm_ss_ff, twoDigits, ha1, ha2, hb1, hb2]

/-- Evaluation of `_parse_isoformat_time` on the normalized whoop time
string `HH:MM:SS.fff±hh:mm`: the timezone is found after the sign, the time
components are parsed, and the offset is the signed timezone value in
microseconds (`timezone.utc`, offset zero, when the timezone components
vanish). -/
theorem parse_isoformat_time_whoop
    (h1 h2 n1 n2 s1 s2 p1 p2 p3 sg a1 a2 b1 b2 : Char)
    (hh1 : h1.isDigit = true) (hh2 : h2.isDigit = true)
    (hn1 : n1.isDigit = true) (hn2 : n2.isDigit = true)
    (hs1 : s1.isDigit = true) (hs2 : s2.isDigit = true)
    (hp1 : p1.isDigit = true) (hp2 : p2.isDigit = true)
    (hp3 : p3.isDigit = true)
    (ha1 : a1.isDigit = true) (ha2 : a2.isDigit = true)
    (hb1 : b1.isDigit = true) (hb2 : b2.isDigit = true)
    (hsg : sg = '+' ∨ sg = '-')
    (hTH : 10 * digitVal a1 + digitVal a2 ≤ 23)
    (hTM : 10 * digitVal b1 + digitVal b2 ≤ 59) :
    parse_isoformat_time
        [h1, h2, ':', n1, n2, ':', s1, s2, '.', p1, p2, p3, sg, a1, a2, ':', b1, b2]
      = some ((10 * digitVal h1 + digitVal h2, 10 * digitVal n1 + digitVal n2,
            10 * digitVal s1 + digitVal s2,
            (100 * digitVal p1 + 10 * digitVal p2 + digitVal p3) * 1000),
          some ((if sg = '-' then (-1 : Int) else 1)
            * (((10 * digitVal a1 + digitVal a2) * 3600
                + (10 * digitVal b1 + digitVal b2) * 60 : Nat) : Int)
            * 1000000)) := by
  obtain ⟨e1a, e1b, e1c, e1d, e1e⟩ := digit_beq_special_false hh1
  obtain ⟨e2a, e2b, e2c, e2d, e2e⟩ := digit_beq_special_false hh2
  obtain ⟨e3a, e3b, e3c, e3d, e3e⟩ := digit_beq_special_false hn1
  obtain ⟨e4a, e4b, e4c, e4d, e4e⟩ := digit_beq_special_false hn2
  obtain ⟨e5a, e5b, e5c, e5d, e5e⟩ := digit_beq_special_false hs1
  obtain ⟨e6a, e6b, e6c, e6d, e6e⟩ := digit_beq_special_false hs2
  obtain ⟨e7a, e7b, e7c, e7d, e7e⟩ := digit_beq_special_false hp1
  obtain ⟨e8a, e8b, e8c, e8d, e8e⟩ := digit_beq_special_false hp2
  obtain ⟨e9a, e9b, e9c, e9d, e9e⟩ := digit_beq_special_false hp3
  obtain ⟨f1a, f1b, f1c, f1d, f1e⟩ := digit_beq_special_false ha1
  obtain ⟨f2a, f2b, f2c, f2d, f2e⟩ := digit_beq_special_false ha2
  obtain ⟨f3a, f3b, f3c, f3d, f3e⟩ := digit_beq_special_false hb1
  obtain ⟨f4a, f4b, f4c, f4d, f4e⟩ := digit_beq_special_false hb2
  have hta := digit_toNat_bounds ha1
  have htb := digit_toNat_bounds ha2
  rcases hsg with rfl | rfl
  · have hfm : ([h1, h2, ':', n1, n2, ':', s1, s2, '.', p1, p2, p3, '+', a1,
        a2, ':', b1, b2].findIdx? (· == '-')) = none := by
      simp [List.findIdx?_cons, e1d, e2d, e3d, e4d, e5d, e6d, e7d, e8d, e9d,
        f1d, f2d, f3d, f4d]
    have hfp : ([h1, h2, ':', n1, n2, ':', s1, s2, '.', p1, p2, p3, '+', a1,
        a2, ':', b1, b2].findIdx? (· == '+')) = some 12 := by
      simp [List.findIdx?_cons, e1b, e2b, e3b, e4b, e5b, e6b, e7b, e8b, e9b]
    have ht12 : ([h1, h2, ':', n1, n2, ':', s1, s2, '.', p1, p2, p3, '+', a1,
        a2, ':', b1, b2].take 12)
        = [h1, h2, ':', n1, n2, ':', s1, s2, '.', p1, p2, p3] := rfl
    have hd13 : ([h1, h2, ':', n1, n2, ':', s1, s2, '.', p1, p2, p3, '+', a1,
        a2, ':', b1, b2].drop 13) = [a1, a2, ':', b1, b2] := rfl
    have hg12 : ([h1, h2, ':', n1, n2, ':', s1, s2, '.', p1, p2, p3, '+',
        a1, a2, ':', b1, b2])[12]? = some '+' := rfl
    unfold parse_isoformat_time
    rw [if_neg (by simp)]
    rw [hfm, hfp]
    simp [ht12, hd13, hg12,
      parse_hh_mm_ss_ff_full hh1 hh2 hn1 hn2 hs1 hs2 hp1 hp2 hp3,
      parse_hh_mm_ss_ff_tz ha1 ha2 hb1 hb2]
    split_ifs with hz hb <;>
      first
      | rfl
      | (simp only [Option.some.injEq, Prod.mk.injEq, true_and]
         push_cast
         omega)
      | (exfalso
         apply hb
         constructor <;> (push_cast; omega))
  · have hfm : ([h1, h2, ':', n1, n2, ':', s1, s2, '.', p1, p2, p3, '-', a1,
        a2, ':', b1, b2].findIdx? (· == '-')) = some 12 := by
      simp [List.findIdx?_cons, e1d, e2d, e3d, e4d, e5d, e6d, e7d, e8d, e9d]
    have ht12 : ([h1, h2, ':', n1, n2, ':', s1, s2, '.', p1, p2, p3, '-', a1,
        a2, ':', b1, b2].take 12)
        = [h1, h2, ':', n1, n2, ':', s1, s2, '.', p1, p2, p3] := rfl
    have hd13 : ([h1, h2, ':', n1, n2, ':', s1, s2, '.', p1, p2, p3, '-', a1,
        a2, ':', b1, b2].drop 13) = [a1, a2, ':', b1, b2] := rfl
    have hg12 : ([h1, h2, ':', n1, n2, ':', s1, s2, '.', p1, p2, p3, '-',
        a1, a2, ':', b1, b2])[12]? = some '-' := rfl
    unfold parse_isoformat_time
    rw [if_neg (by simp)]
    rw [hfm]
    simp [ht12, hd13, hg12,
      parse_hh_mm_ss_ff_full hh1 hh2 hn1 hn2 hs1 hs2 hp1 hp2 hp3,
      parse_hh_mm_ss_ff_tz ha1 ha2 hb1 hb2]
    split_ifs with hz hb <;>
      first
      | rfl
      | (simp only [Option.some.injEq, Prod.mk.injEq, true_and]
         push_cast
         omega)
      | (exfalso
         apply hb
         constructor <;> (push_cast; omega))

/-- Evaluation of `fromisoformat` on the fully normalized whoop timestamp
`YYYY-MM-DDTHH:MM:SS.fff±hh:mm` with valid field ranges. -/
theorem fromisoformat_whoop
    (y1 y2 y3 y4 mo1 mo2 d1 d2 h1 h2 n1 n2 s1 s2 p1 p2 p3 sg a1 a2 b1 b2 : Char)
    (hy1 : y1.isDigit = true) (hy2 : y2.isDigit = true)
    (hy3 : y3.isDigit = true) (hy4 : y4.isDigit = true)
    (hmo1 : mo1.isDigit = true) (hmo2 : mo2.isDigit = true)
    (hd1 : d1.isDigit = true) (hd2 : d2.isDigit = true)
    (hh1 : h1.isDigit = true) (hh2 : h2.isDigit = true)
    (hn1 : n1.isDigit = true) (hn2 : n2.isDigit = true)
    (hs1 : s1.isDigit = true) (hs2 : s2.isDigit = true)
    (hp1 : p1.isDigit = true) (hp2 : p2.isDigit = true)
    (hp3 : p3.isDigit = true)
    (ha1 : a1.isDigit = true) (ha2 : a2.isDigit = true)
    (hb1 : b1.isDigit = true) (hb2 : b2.isDigit = true)
    (hsg : sg = '+' ∨ sg = '-')
    (hY1 : 1 ≤ 1000 * digitVal y1 + 100 * digitVal y2 + 10 * digitVal y3
        + digitVal y4)
    (hMo1 : 1 ≤ 10 * digitVal mo1 + digitVal mo2)
    (hMo2 : 10 * digitVal mo1 + digitVal mo2 ≤ 12)
    (hD1 : 1 ≤ 10 * digitVal d1 + digitVal d2)
    (hD2 : 10 * digitVal d1 + digitVal d2
        ≤ daysInMonth (1000 * digitVal y1 + 100 * digitVal y2
            + 10 * digitVal y3 + digitVal y4) (10 * digitVal mo1 + digitVal mo2))
    (hH : 10 * digitVal h1 + digitVal h2 ≤ 23)
    (hN : 10 * digitVal n1 + digitVal n2 ≤ 59)
    (hS : 10 * digitVal s1 + digitVal s2 ≤ 59)
    (hTH : 10 * digitVal a1 + digitVal a2 ≤ 23)
    (hTM : 10 * digitVal b1 + digitVal b2 ≤ 59) :
    fromisoformat [y1, y2, y3, y4, '-', mo1, mo2, '-', d1, d2, 'T', h1, h2,
        ':', n1, n2, ':', s1, s2, '.', p1, p2, p3, sg, a1, a2, ':', b1, b2]
      = some
          { year := 1000 * digitVal y1 + 100 * digitVal y2 + 10 * digitVal y3
              + digitVal y4
            month := 10 * digitVal mo1 + digitVal mo2
            day := 10 * digitVal d1 + digitVal d2
            hour := 10 * digitVal h1 + digitVal h2
            minute := 10 * digitVal n1 + digitVal n2
            second := 10 * digitVal s1 + digitVal s2
            microsecond := (100 * digitVal p1 + 10 * digitVal p2
              + digitVal p3) * 1000
            utcoffset := some ((if sg = '-' then (-1 : Int) else 1)
              * (((10 * digitVal a1 + digitVal a2) * 3600
                  + (10 * digitVal b1 + digitVal b2) * 60 : Nat) : Int)
              * 1000000) } := by
  have ht : ([y1, y2, y3, y4, '-', mo1, mo2, '-', d1, d2, 'T', h1, h2,
      ':', n1, n2, ':', s1, s2, '.', p1, p2, p3, sg, a1, a2, ':', b1, b2].take 10)
      = [y1, y2, y3, y4, '-', mo1, mo2, '-', d1, d2] := rfl
  have hdr : ([y1, y2, y3, y4, '-', mo1, mo2, '-', d1, d2, 'T', h1, h2,
      ':', n1, n2, ':', s1, s2, '.', p1, p2, p3, sg, a1, a2, ':', b1, b2].drop 11)
      = [h1, h2, ':', n1, n2, ':', s1, s2, '.', p1, p2, p3, sg, a1, a2,
         ':', b1, b2] := rfl
  unfold fromisoformat
  rw [ht, hdr, parse_isoformat_date_digits hy1 hy2 hy3 hy4 hmo1 hmo2 hd1 hd2]
  simp only [List.isEmpty_cons, Bool.false_eq_true, if_false,
    parse_isoformat_time_whoop h1 h2 n1 n2 s1 s2 p1 p2 p3 sg a1 a2 b1 b2
      hh1 hh2 hn1 hn2 hs1 hs2 hp1 hp2 hp3 ha1 ha2 hb1 hb2 hsg hTH hTM]
  rw [if_pos (by
    have hv1 := digitVal_le_nine hy1
    have hv2 := digitVal_le_nine hy2
    have hv3 := digitVal_le_nine hy3
    have hv4 := digitVal_le_nine hy4
    have hv5 := digitVal_le_nine hp1
    have hv6 := digitVal_le_nine hp2
    have hv7 := digitVal_le_nine hp3
    refine ⟨hY1, by omega, hMo1, hMo2, hD1, hD2, hH, hN, hS, by omega⟩)]

/-- C8: a whoop vendor timestamp whose fractional-seconds part has fewer
than three digits before the `'+'` and whose timezone substring is the
malformed vendor form `+00:00` is normalized by
`convert_whoop_str_to_datetime`: the fraction is right-padded with zeros to
three digits, the timezone substring is rewritten from the separate
`tz` offset field (`±hhmm`), and the resulting string is accepted by
ISO-8601 parsing, the parsed datetime carrying the offset of the `tz`
argument. -/
theorem convert_whoop_str_pads_and_retimezones
    (y1 y2 y3 y4 mo1 mo2 d1 d2 h1 h2 n1 n2 s1 s2 sg a1 a2 b1 b2 : Char)
    (frac : List Char)
    (hy1 : y1.isDigit = true) (hy2 : y2.isDigit = true)
    (hy3 : y3.isDigit = true) (hy4 : y4.isDigit = true)
    (hmo1 : mo1.isDigit = true) (hmo2 : mo2.isDigit = true)
    (hd1 : d1.isDigit = true) (hd2 : d2.isDigit = true)
    (hh1 : h1.isDigit = true) (hh2 : h2.isDigit = true)
    (hn1 : n1.isDigit = true) (hn2 : n2.isDigit = true)
    (hs1 : s1.isDigit = true) (hs2 : s2.isDigit = true)
    (ha1 : a1.isDigit = true) (ha2 : a2.isDigit = true)
    (hb1 : b1.isDigit = true) (hb2 : b2.isDigit = true)
    (hfrac : ∀ c ∈ frac, c.isDigit = true) (hflen : frac.length < 3)
    (hsg : sg = '+' ∨ sg = '-')
    (hY1 : 1 ≤ 1000 * digitVal y1 + 100 * digitVal y2 + 10 * digitVal y3
        + digitVal y4)
    (hMo1 : 1 ≤ 10 * digitVal mo1 + digitVal mo2)
    (hMo2 : 10 * digitVal mo1 + digitVal mo2 ≤ 12)
    (hD1 : 1 ≤ 10 * digitVal d1 + digitVal d2)
    (hD2 : 10 * digitVal d1 + digitVal d2
        ≤ daysInMonth (1000 * digitVal y1 + 100 * digitVal y2
            + 10 * digitVal y3 + digitVal y4) (10 * digitVal mo1 + digitVal mo2))
    (hH : 10 * digitVal h1 + digitVal h2 ≤ 23)
    (hN : 10 * digitVal n1 + digitVal n2 ≤ 59)
    (hS : 10 * digitVal s1 + digitVal s2 ≤ 59)
    (hTH : 10 * digitVal a1 + digitVal a2 ≤ 23)
    (hTM : 10 * digitVal b1 + digitVal b2 ≤ 59) :
    zero_pad_microseconds_sub
        ([y1, y2, y3, y4, '-', mo1, mo2, '-', d1, d2, 'T', h1, h2, ':',
          n1, n2, ':', s1, s2] ++ '.' :: (frac ++ '+' :: ['0', '0', ':', '0', '0']))
      = [y1, y2, y3, y4, '-', mo1, mo2, '-', d1, d2, 'T', h1, h2, ':',
         n1, n2, ':', s1, s2]
          ++ '.' :: ((frac ++ List.replicate (3 - frac.length) '0')
              ++ '+' :: ['0', '0', ':', '0', '0'])
    ∧ ∃ dt : PyDatetime,
        convert_whoop_str_to_datetime
            ([y1, y2, y3, y4, '-', mo1, mo2, '-', d1, d2, 'T', h1, h2, ':',
              n1, n2, ':', s1, s2]
              ++ '.' :: (frac ++ '+' :: ['0', '0', ':', '0', '0']))
            [sg, a1, a2, b1, b2]
          = some dt
        ∧ dt.utcoffset = some ((if sg = '-' then (-1 : Int) else 1)
            * (((10 * digitVal a1 + digitVal a2) * 3600
                + (10 * digitVal b1 + digitVal b2) * 60 : Nat) : Int)
            * 1000000) := by
  have hpad := zero_pad_whoop y1 y2 y3 y4 mo1 mo2 d1 d2 h1 h2 n1 n2 s1 s2
    frac hy1 hy2 hy3 hy4 hmo1 hmo2 hd1 hd2 hh1 hh2 hn1 hn2 hs1 hs2 hfrac
    (by omega)
  refine ⟨hpad, ?_⟩
  unfold convert_whoop_str_to_datetime
  rw [hpad]
  have hrepl : ([sg, a1, a2, b1, b2].take 3 ++ ':' :: [sg, a1, a2, b1, b2].drop 3)
      = [sg, a1, a2, ':', b1, b2] := rfl
  rw [hrepl]
  rcases frac with _ | ⟨f1, _ | ⟨f2, _ | ⟨f3, frest⟩⟩⟩
  · simp only [List.nil_append, List.length_nil, Nat.sub_zero]
    have hrep : List.replicate 3 '0' = ['0', '0', '0'] := rfl
    rw [hrep]
    simp only [List.cons_append, List.nil_append]
    rw [tz_walk [sg, a1, a2, ':', b1, b2] y1 y2 y3 y4 mo1 mo2 d1 d2 h1 h2
      n1 n2 s1 s2 '0' '0' '0' hy1 hy2 hy3 hy4 hmo1 hmo2 hd1 hd2 hh1 hh2
      hn1 hn2 hs1 hs2 (by decide) (by decide) (by decide)]
    simp only [List.cons_append, List.nil_append]
    exact ⟨_, fromisoformat_whoop y1 y2 y3 y4 mo1 mo2 d1 d2 h1 h2 n1 n2 s1 s2
      '0' '0' '0' sg a1 a2 b1 b2 hy1 hy2 hy3 hy4 hmo1 hmo2 hd1 hd2 hh1 hh2
      hn1 hn2 hs1 hs2 (by decide) (by decide) (by decide) ha1 ha2 hb1 hb2
      hsg hY1 hMo1 hMo2 hD1 hD2 hH hN hS hTH hTM, rfl⟩
  · have hf1 : f1.isDigit = true := hfrac f1 (by simp)
    simp only [List.length_cons, List.length_nil]
    have hrep : List.replicate (3 - (0 + 1)) '0' = ['0', '0'] := rfl
    rw [hrep]
    simp only [List.cons_append, List.nil_append]
    rw [tz_walk [sg, a1, a2, ':', b1, b2] y1 y2 y3 y4 mo1 mo2 d1 d2 h1 h2
      n1 n2 s1 s2 f1 '0' '0' hy1 hy2 hy3 hy4 hmo1 hmo2 hd1 hd2 hh1 hh2
      hn1 hn2 hs1 hs2 hf1 (by decide) (by decide)]
    simp only [List.cons_append, List.nil_append]
    exact ⟨_, fromisoformat_whoop y1 y2 y3 y4 mo1 mo2 d1 d2 h1 h2 n1 n2 s1 s2
      f1 '0' '0' sg a1 a2 b1 b2 hy1 hy2 hy3 hy4 hmo1 hmo2 hd1 hd2 hh1 hh2
      hn1 hn2 hs1 hs2 hf1 (by decide) (by decide) ha1 ha2 hb1 hb2
      hsg hY1 hMo1 hMo2 hD1 hD2 hH hN hS hTH hTM, rfl⟩
  · have hf1 : f1.isDigit = true := hfrac f1 (by simp)
    have hf2 : f2.isDigit = true := hfrac f2 (by simp)
    simp only [List.length_cons, List.length_nil]
    have hrep : List.replicate (3 - (0 + 1 + 1)) '0' = ['0'] := rfl
    rw [hrep]
    simp only [List.cons_append, List.nil_append]
    rw [tz_walk [sg, a1, a2, ':', b1, b2] y1 y2 y3 y4 mo1 mo2 d1 d2 h1 h2
      n1 n2 s1 s2 f1 f2 '0' hy1 hy2 hy3 hy4 hmo1 hmo2 hd1 hd2 hh1 hh2
      hn1 hn2 hs1 hs2 hf1 hf2 (by decide)]
    simp only [List.cons_append, List.nil_append]
    exact ⟨_, fromisoformat_whoop y1 y2 y3 y4 mo1 mo2 d1 d2 h1 h2 n1 n2 s1 s2
      f1 f2 '0' sg a1 a2 b1 b2 hy1 hy2 hy3 hy4 hmo1 hmo2 hd1 hd2 hh1 hh2
      hn1 hn2 hs1 hs2 hf1 hf2 (by decide) ha1 ha2 hb1 hb2
      hsg hY1 hMo1 hMo2 hD1 hD2 hH hN hS hTH hTM, rfl⟩
  · exfalso
    simp only [List.length_cons] at hflen
    omega

/-- Witness for C8 at the concrete vendor timestamp
`2022-04-24T09:08:07.47+00:00` with offset field `-0700`. -/
theorem convert_whoop_str_pads_and_retimezones_witness :
    (∀ c ∈ ['4', '7'], c.isDigit = true)
    ∧ ∃ dt : PyDatetime,
        convert_whoop_str_to_datetime
            (['2', '0', '2', '2', '-', '0', '4', '-', '2', '4', 'T', '0', '9',
              ':', '0', '8', ':', '0', '7']
              ++ '.' :: (['4', '7'] ++ '+' :: ['0', '0', ':', '0', '0']))
            ['-', '0', '7', '0', '0']
          = some dt
        ∧ dt.utcoffset = some (-25200000000) :=
  ⟨by decide, by
    obtain ⟨-, dt, hdt, hoff⟩ := convert_whoop_str_pads_and_retimezones
      '2' '0' '2' '2' '0' '4' '2' '4' '0' '9' '0' '8' '0' '7' '-' '0' '7'
      '0' '0' ['4', '7']
      (by decide) (by decide) (by decide) (by decide) (by decide) (by decide)
      (by decide) (by decide) (by decide) (by decide) (by decide) (by decide)
      (by decide) (by decide) (by decide) (by decide) (by decide) (by decide)
      (by decide) (by decide) (Or.inr rfl)
      (by decide) (by decide) (by decide) (by decide) (by decide) (by decide)
      (by decide) (by decide) (by decide) (by decide)
    exact ⟨dt, hdt, by rw [hoff]; decide⟩⟩

end Wearipedia
